import Mathlib

/-!
Shallow embedding of the unified error-classification and response pipeline
of the go-clean-arch repository:

* `internal/handler/middleware/error.go` — the `AppError` taxonomy, the
  sentinel errors, `handleError` (the classifier), `ErrorMiddleware`
  (propagation stage) and `ErrorHandler` (panic-recovery stage);
* `internal/handler/article.go` — the article routes (`GetByID`, `Delete`,
  `FetchArticle`, `Store`) and `getStatusCode`;
* `app/main.go` — the registration order of the two middleware stages.

Machine integers (the Go `int` status codes) are modelled as `Int`;
`strconv.Atoi` is modelled with its 64-bit range check. Per-request state
(`*gin.Context`) is modelled as an explicit record threaded through the
middleware chain, and a panicking handler is a handler returning a panic
value alongside its state changes.
-/

namespace GoCleanArch

/-- Log level of the structured record emitted by `handleError`:
`logger.Warn` versus `logger.Error`. -/
inductive Severity where
  | warn
  | error
deriving DecidableEq

/-- The data fields of `middleware.AppError` (error.go lines 19 to 24) apart
from the wrapped cause: `Code` (Go `int`), `Message`, `Details`. The cause
(`Err`) lives in the `GoError.appError` constructor below because the two
types are mutually recursive. -/
structure AppError where
  Code : Int
  Message : String
  Details : String
deriving DecidableEq

/-- A Go `error` value as the middleware type switches can observe it:
a `*middleware.AppError` (with its optional wrapped cause), a `*gin.Error`
(which wraps an inner error and whose `Error()` returns the inner text),
an `fmt.Errorf`-style wrapper, one of the three domain sentinel errors
(`domain.ErrNotFound`, `domain.ErrConflict`, `domain.ErrInternalServerError`,
distinct process-wide `errors.New` values matched by identity), or an
unclassified error carrying only its message. -/
inductive GoError where
  | appError (d : AppError) (cause : Option GoError)
  | ginError (inner : GoError)
  | wrapper (msg : String) (inner : GoError)
  | domainNotFound
  | domainConflict
  | domainInternalServerError
  | unknownErr (msg : String)

/-- The text `err.Error()` returns: `AppError.Error()` is the wrapped cause
text when a cause is present, else the message (error.go lines 26 to 31);
`gin.Error.Error()` returns the wrapped error text; an `fmt.Errorf` wrapper
returns its formatted message; the domain sentinels carry their
`errors.New` texts. -/
def GoError.errText : GoError → String
  | .appError d none => d.Message
  | .appError _ (some c) => c.errText
  | .ginError inner => inner.errText
  | .wrapper msg _ => msg
  | .domainNotFound => "your requested Item is not found"
  | .domainConflict => "your Item already exist"
  | .domainInternalServerError => "internal server error"
  | .unknownErr msg => msg

/-- The behaviour of `errors.As(err, &appErr)` (error.go line 103): succeed
when the value itself is a `*AppError`, otherwise follow the `Unwrap` chain.
`*gin.Error` and `fmt.Errorf` wrappers unwrap to their inner error;
`*AppError` declares no `Unwrap` method, so the search stops at the first
`AppError` reached; the domain sentinels and plain errors unwrap to
nothing. -/
def findAppError : GoError → Option AppError
  | .appError d _ => some d
  | .ginError inner => findAppError inner
  | .wrapper _ inner => findAppError inner
  | _ => none

/-- The concrete-type assertion `err.(*gin.Error)` (error.go line 120): it
looks only at the top-level dynamic type and never unwraps. -/
def isGinErrorValue : GoError → Bool
  | .ginError _ => true
  | _ => false

/-- The wire response struct `ErrorResponse` (error.go lines 12 to 16). The
`details` JSON key carries the `omitempty` tag: the key is absent from the
serialized body exactly when `details = ""`. -/
structure ErrorResponse where
  code : Int
  message : String
  details : String
deriving DecidableEq

/-- Everything one call to `handleError` does to the request: the HTTP
status handed to `c.JSON`, the serialized body, and the log level of the
single structured record it emits. -/
structure HandleResult where
  status : Int
  body : ErrorResponse
  severity : Severity
deriving DecidableEq

/-- The `AppError` branch of `handleError` (error.go lines 101 to 117):
code, message and details are copied verbatim; the log level is `Error`
when `appErr.Code >= 500` and `Warn` otherwise. -/
def appErrorResult (d : AppError) : HandleResult :=
  { status := d.Code
    body := { code := d.Code, message := d.Message, details := d.Details }
    severity := if 500 ≤ d.Code then .error else .warn }

/-- The classifier `handleError` (error.go lines 91 to 140): first
`errors.As` for an `AppError` anywhere in the chain; else the concrete-type
check for a `*gin.Error`, answered with 400 and the binder text as details;
else the generic 500 response with no details. -/
def handleError (err : GoError) : HandleResult :=
  match findAppError err with
  | some appErr => appErrorResult appErr
  | none =>
    match err with
    | .ginError inner =>
      { status := 400
        body := { code := 400, message := "请求参数错误"
                  details := GoError.errText (.ginError inner) }
        severity := .warn }
    | _ =>
      { status := 500
        body := { code := 500, message := "服务器内部错误", details := "" }
        severity := .error }

/-- Sentinel `middleware.ErrBadRequest` (error.go line 35). -/
def ErrBadRequest : GoError :=
  .appError { Code := 400, Message := "请求参数错误", Details := "" } none

/-- Sentinel `middleware.ErrNotFound` (error.go line 38). -/
def ErrNotFound : GoError :=
  .appError { Code := 404, Message := "资源不存在", Details := "" } none

/-- Sentinel `middleware.ErrConflict` (error.go line 39). -/
def ErrConflict : GoError :=
  .appError { Code := 409, Message := "资源冲突", Details := "" } none

/-- Sentinel `middleware.ErrInternalServerError` (error.go line 40). -/
def ErrInternalServerError : GoError :=
  .appError { Code := 500, Message := "服务器内部错误", Details := "" } none

/-- Constructor `middleware.NewAppError` (error.go lines 44 to 50). -/
def NewAppError (code : Int) (message details : String) : GoError :=
  .appError { Code := code, Message := message, Details := details } none

/-- Constructor `middleware.NewAppErrorWithErr` (error.go lines 53 to 59):
the original error becomes the wrapped cause and `Details` stays empty. -/
def NewAppErrorWithErr (code : Int) (message : String) (err : GoError) : GoError :=
  .appError { Code := code, Message := message, Details := "" } (some err)

/-- A value handed to `panic` and seen by `gin.CustomRecovery` as
`recovered interface\x7b\x7d`: either a value satisfying the `error`
interface, or any other value such as a plain string. -/
inductive PanicVal where
  | errVal (e : GoError)
  | nonError (s : String)

/-- The per-request `*gin.Context` state the two middleware stages observe:
the attached error list `c.Errors`, the `(status, body)` pairs written by
`c.JSON` with an `ErrorResponse` body, the log records emitted, and the
abort flag. -/
structure Ctx where
  errors : List GoError
  responses : List (Int × ErrorResponse)
  logs : List Severity
  aborted : Bool

/-- A handler (or a whole tail of the middleware chain): it transforms the
request state and either returns normally (`none`) or panics with a value,
in which case the code after the `c.Next()` call of every enclosing
middleware frame is skipped. -/
def Handler := Ctx → Ctx × Option PanicVal

/-- Running `handleError` against the context: exactly one `c.JSON` write
and exactly one log record. -/
def applyHandleError (err : GoError) (c : Ctx) : Ctx :=
  let r := handleError err
  { c with
    responses := c.responses ++ [(r.status, r.body)]
    logs := c.logs ++ [r.severity] }

/-- The helper `middleware.HandleError` (error.go lines 87 to 89):
`c.Error(err)` appends the error to `c.Errors` (the propagation stage later
reads back the original error through `.Err`). -/
def HandleError (err : GoError) (c : Ctx) : Ctx :=
  { c with errors := c.errors ++ [err] }

/-- The element `c.Errors.Last()` reads (the last attached error), as an
option so that the emptiness test `len(c.Errors) > 0` and the read are one
function: `none` exactly on the empty list. -/
def lastAttached : List GoError → Option GoError
  | [] => none
  | [e] => some e
  | _ :: e :: rest => lastAttached (e :: rest)

/-- The propagation stage `middleware.ErrorMiddleware` (error.go lines 73
to 84): run the rest of the chain; a panic unwinds through this frame so
the code after `c.Next()` never runs; on a normal return, when
`len(c.Errors) > 0`, classify the last attached error with `handleError`
and `c.Abort()`; otherwise leave the context untouched. -/
def ErrorMiddleware (inner : Handler) : Handler := fun c0 =>
  match inner c0 with
  | (c, some v) => (c, some v)
  | (c, none) =>
    match lastAttached c.errors with
    | some err => ({ applyHandleError err c with aborted := true }, none)
    | none => (c, none)

/-- The dispatch inside `gin.CustomRecovery` (error.go lines 63 to 68): a
recovered value that satisfies the `error` interface is classified itself;
any other recovered value is classified as `ErrInternalServerError`. -/
def recoveredDispatch : PanicVal → GoError
  | .errVal e => e
  | .nonError _ => ErrInternalServerError

/-- The recovery stage `middleware.ErrorHandler` (error.go lines 62 to 70):
if the wrapped chain panics, recover the value and run `handleError` on its
dispatch; a normal return passes through untouched. -/
def ErrorHandler (inner : Handler) : Handler := fun c0 =>
  match inner c0 with
  | (c, some v) => (applyHandleError (recoveredDispatch v) c, none)
  | (c, none) => (c, none)

/-- The registration order of main.go lines 93 to 97: `ErrorHandler` is
registered with `r.Use` before `ErrorMiddleware`, and gin runs middlewares
in registration order, so the recovery stage is the outermost frame wrapping
the propagation stage. -/
def mainChain (inner : Handler) : Handler :=
  ErrorHandler (ErrorMiddleware inner)

/-- The function `getStatusCode` of the article handler (article.go): `nil`
maps to 200; otherwise an identity switch on the three domain sentinels
maps `domain.ErrInternalServerError` to 500, `domain.ErrNotFound` to 404,
`domain.ErrConflict` to 409, and everything else to 500. -/
def getStatusCode : Option GoError → Int
  | none => 200
  | some .domainInternalServerError => 500
  | some .domainNotFound => 404
  | some .domainConflict => 409
  | some _ => 500

/-- The digit loop of `strconv.Atoi`: consume decimal digits only,
accumulating the value; any other character is an error. -/
def digitsVal : List Char → Nat → Option Nat
  | [], acc => some acc
  | c :: rest, acc =>
    if c.isDigit then digitsVal rest (acc * 10 + (c.toNat - 48)) else none

/-- The behaviour of `strconv.Atoi` on a 64-bit platform: an optional
leading sign followed by at least one decimal digit and nothing else, with
the value required to fit in a signed 64-bit integer; anything else is an
error (`none`). -/
def goAtoi (s : String) : Option Int :=
  match s.data with
  | [] => none
  | c :: rest =>
    let neg := c = '-'
    let body := if c = '-' ∨ c = '+' then rest else c :: rest
    if body.isEmpty then none
    else
      match digitsVal body 0 with
      | none => none
      | some n =>
        let v : Int := if neg then -(n : Int) else (n : Int)
        if -(2 ^ 63) ≤ v ∧ v < 2 ^ 63 then some v else none

/-- How a route handler run ends at or before its service call: either it
attached an error via `middleware.HandleError` and returned without calling
the service, or it reached the corresponding `ArticleService` call with the
arguments shown. -/
inductive RouteOutcome where
  | attach (e : GoError)
  | callGetByID (id : Int)
  | callDelete (id : Int)
  | callFetch (cursor : String) (num : Int)

/-- The parameter phase of handler `GetByID` (article.go lines 265 to 271):
parse the `:id` path parameter with `strconv.Atoi`; on failure attach
`ErrBadRequest` and return; on success call `Service.GetByID` with the
parsed id. -/
def GetByID (idParam : String) : RouteOutcome :=
  match goAtoi idParam with
  | none => .attach ErrBadRequest
  | some id => .callGetByID id

/-- The parameter phase of handler `Delete` (article.go lines 319 to 325):
identical to `GetByID` for the `:id` parameter, then `Service.Delete`. -/
def Delete (idParam : String) : RouteOutcome :=
  match goAtoi idParam with
  | none => .attach ErrBadRequest
  | some id => .callDelete id

/-- The parameter phase of handler `FetchArticle` (article.go lines 244 to
254): `numS := c.DefaultQuery("num", "10")` (the default string when the
query key is absent), then `strconv.Atoi`; on a parse error or a zero value
the number becomes `defaultNum = 10`; the handler then always reaches
`Service.Fetch` with the cursor and that number. -/
def FetchArticle (numQuery : Option String) (cursor : String) : RouteOutcome :=
  let numS := numQuery.getD "10"
  let num : Int :=
    match goAtoi numS with
    | none => 10
    | some n => if n = 0 then 10 else n
  .callFetch cursor num

/-- The binding-failure path of handler `Store` (article.go lines 294 to
299): a `c.ShouldBindJSON` failure is wrapped as
`NewAppErrorWithErr(http.StatusBadRequest, "请求参数错误", err)` and attached. -/
def StoreBindFailure (bindErr : GoError) : GoError :=
  NewAppErrorWithErr 400 "请求参数错误" bindErr

/-- The shared service-failure pattern of the article handlers (for example
article.go line 278): the service error is wrapped as
`NewAppErrorWithErr(getStatusCode(err), msg, err)` where `msg` is the call
site fixed localized message, then attached. -/
def serviceFailure (msg : String) (err : GoError) : GoError :=
  NewAppErrorWithErr (getStatusCode (some err)) msg err

/-- Helper: on every input the classifier logs at `error` level exactly when
the status it answers with is at least 500. -/
theorem handleError_severity_iff (e : GoError) :
    (handleError e).severity = Severity.error ↔ 500 ≤ (handleError e).status := by
  unfold handleError
  cases hfa : findAppError e with
  | some d =>
    simp only [appErrorResult]
    by_cases h : (500 : Int) ≤ d.Code <;> simp [h]
  | none =>
    cases e <;> simp_all [findAppError]

/-- Helper: the last attached element of a context error list built by
appending one error is that error. -/
theorem lastAttached_concat (l : List GoError) (e : GoError) :
    lastAttached (l ++ [e]) = some e := by
  induction l with
  | nil => rfl
  | cons a rest ih =>
    cases rest with
    | nil => rfl
    | cons b t => simpa [lastAttached] using ih

/-- C1: every failure that neither is nor wraps an `AppError` and is not a
`*gin.Error` is answered with status 500, body code 500, the generic
localized message 服务器内部错误 and an absent `details` key, regardless of
the failure content; a recovered panic value that is not an `error` takes
the same shape through the recovery dispatch. -/
theorem c1_unclassified_failure_generic_500 (e : GoError)
    (h1 : findAppError e = none) (h2 : isGinErrorValue e = false) :
    handleError e =
      { status := 500
        body := { code := 500, message := "服务器内部错误", details := "" }
        severity := .error } ∧
    ∀ s, handleError (recoveredDispatch (.nonError s)) =
      { status := 500
        body := { code := 500, message := "服务器内部错误", details := "" }
        severity := .error } := by
  constructor
  · cases e <;> simp_all [handleError, findAppError, isGinErrorValue]
  · intro s
    simp [handleError, recoveredDispatch, ErrInternalServerError, findAppError,
      appErrorResult]

/-- C1 witness: the concrete unclassified failure carrying internal text is
answered with the generic 500 body. -/
theorem c1_witness :
    findAppError (GoError.unknownErr "sql: connection refused") = none ∧
    handleError (GoError.unknownErr "sql: connection refused") =
      { status := 500
        body := { code := 500, message := "服务器内部错误", details := "" }
        severity := .error } :=
  ⟨rfl, (c1_unclassified_failure_generic_500 (GoError.unknownErr "sql: connection refused")
    rfl rfl).1⟩

/-- C2: when the failure is (or wraps) an `AppError`, the classifier copies
its code, message and details verbatim into the response, and logs at
`Error` level exactly when the code is at least 500 and at `Warn` level
exactly when it is below 500. -/
theorem c2_appError_verbatim_severity (err : GoError) (d : AppError)
    (h : findAppError err = some d) :
    (handleError err).status = d.Code ∧
    (handleError err).body = { code := d.Code, message := d.Message, details := d.Details } ∧
    ((handleError err).severity = Severity.error ↔ 500 ≤ d.Code) ∧
    ((handleError err).severity = Severity.warn ↔ d.Code < 500) := by
  unfold handleError
  rw [h]
  have hs : (appErrorResult d).severity =
      if 500 ≤ d.Code then Severity.error else Severity.warn := rfl
  refine ⟨rfl, rfl, ?_, ?_⟩
  · rw [hs]
    by_cases hc : (500 : Int) ≤ d.Code
    · simp [hc]
    · simp [hc]
  · rw [hs]
    by_cases hc : (500 : Int) ≤ d.Code
    · simp [hc]
    · simp [hc]
      omega

/-- C2 witness: a gateway-style `AppError` with code 502 wrapping a cause is
reproduced verbatim and logged at `Error` level. -/
theorem c2_witness :
    (handleError (NewAppErrorWithErr 502 "网关错误" (GoError.unknownErr "upstream down"))).severity
      = Severity.error ∧
    (handleError (NewAppErrorWithErr 502 "网关错误" (GoError.unknownErr "upstream down"))).body
      = { code := 502, message := "网关错误", details := "" } := by
  have h := c2_appError_verbatim_severity
    (NewAppErrorWithErr 502 "网关错误" (GoError.unknownErr "upstream down"))
    { Code := 502, Message := "网关错误", Details := "" } rfl
  exact ⟨h.2.2.1.mpr (by norm_num), h.2.1⟩

/-- C3: a service failure matching one of the three domain sentinels (by
identity) is mapped to the corresponding status 404, 409 or 500 with the
call site fixed localized message and an absent `details` key; a
structurally equal but distinct error value (a wrapped sentinel) does not
match and falls to the default 500 arm. -/
theorem c3_domain_sentinel_mapping :
    (∀ msg, handleError (serviceFailure msg GoError.domainNotFound) =
      { status := 404
        body := { code := 404, message := msg, details := "" }
        severity := .warn }) ∧
    (∀ msg, handleError (serviceFailure msg GoError.domainConflict) =
      { status := 409
        body := { code := 409, message := msg, details := "" }
        severity := .warn }) ∧
    (∀ msg, handleError (serviceFailure msg GoError.domainInternalServerError) =
      { status := 500
        body := { code := 500, message := msg, details := "" }
        severity := .error }) ∧
    (∀ p, getStatusCode (some (GoError.wrapper p GoError.domainNotFound)) = 500) := by
  refine ⟨fun msg => ?_, fun msg => ?_, fun msg => ?_, fun p => rfl⟩ <;>
    simp [handleError, serviceFailure, NewAppErrorWithErr, getStatusCode,
      findAppError, appErrorResult]

/-- C4 counterexample: on the only binding-failure path the code has (the
`Store` handler wraps the binder error with `NewAppErrorWithErr`), the
concrete binder diagnostic "unexpected end of JSON input" does not appear in
the `details` field of the response: `details` is empty (absent on the
wire), so the claim that `details` equals the raw binder message is false
at this input. -/
theorem c4_counterexample :
    (handleError (StoreBindFailure (GoError.unknownErr "unexpected end of JSON input"))).body.details
        = "" ∧
    "" ≠ "unexpected end of JSON input" ∧
    (handleError (StoreBindFailure (GoError.unknownErr "unexpected end of JSON input"))).status
        = 400 := by
  refine ⟨rfl, ?_, rfl⟩
  decide

/-- C4 (amended): every binding failure of the `Store` handler yields HTTP
status 400, body code 400, the localized message 请求参数错误 with severity
`warn`, and an absent `details` key — the raw binder diagnostic is kept only
in the wrapped cause (for the log record), never in the response body. -/
theorem c4_bind_failure_400_no_details (bindErr : GoError) :
    handleError (StoreBindFailure bindErr) =
      { status := 400
        body := { code := 400, message := "请求参数错误", details := "" }
        severity := .warn } := by
  simp [handleError, StoreBindFailure, NewAppErrorWithErr, findAppError,
    appErrorResult]

/-- C5 counterexample: a handler panic whose recovered value is the sentinel
`ErrBadRequest` (an `AppError` with code 400, an `error` value) is logged by
the recovery stage at `warn`, not at `error`: the claim that every
recovered panic is logged at error severity regardless of the derived
status code is false at this input. -/
theorem c5_counterexample :
    ((ErrorHandler (fun c => (c, some (PanicVal.errVal ErrBadRequest))))
        { errors := [], responses := [], logs := [], aborted := false }).1.logs
      = [Severity.warn] ∧
    Severity.warn ≠ Severity.error := by
  exact ⟨rfl, by decide⟩

/-- C5 (amended): the recovery stage emits exactly one log record per
recovered panic, at the severity the classification derives: `error` exactly
when the derived status code is at least 500; in particular every recovered
value that is not an `error` is logged at `error` severity, but a recovered
`AppError` with code below 500 is logged at `warn`. -/
theorem c5_recovery_severity_follows_classification (v : PanicVal) (c0 : Ctx) :
    ((ErrorHandler (fun c => (c, some v))) c0).1.logs
      = c0.logs ++ [(handleError (recoveredDispatch v)).severity] ∧
    ((handleError (recoveredDispatch v)).severity = Severity.error ↔
      500 ≤ (handleError (recoveredDispatch v)).status) ∧
    ∀ s, (handleError (recoveredDispatch (PanicVal.nonError s))).severity
      = Severity.error := by
  refine ⟨rfl, handleError_severity_iff _, fun s => rfl⟩

/-- C6: when the wrapped chain returns normally, the propagation stage
classifies exactly the last attached error (earlier attachments, including a
duplicate of the same error, are superseded), performs the one write and one
log record of `handleError` on it, and sets the abort flag; when no error
was attached, the context passes through completely unchanged. -/
theorem c6_propagation_last_error_once (inner : Handler) (c0 c1 : Ctx)
    (h : inner c0 = (c1, none)) :
    (∀ es e, c1.errors = es ++ [e] →
      ErrorMiddleware inner c0 =
        ({ applyHandleError e c1 with aborted := true }, none)) ∧
    (c1.errors = [] → ErrorMiddleware inner c0 = (c1, none)) := by
  constructor
  · intro es e hs
    simp only [ErrorMiddleware, h, hs, lastAttached_concat]
  · intro hs
    simp only [ErrorMiddleware, h, hs, lastAttached]

/-- C6 witness: a handler that attaches the sentinel `ErrNotFound` twice and
returns normally leads to exactly one written response, the classification
of the (last) attachment — 404 with message 资源不存在 and no details — one
`warn` log record, and the abort flag set. -/
theorem c6_witness :
    ErrorMiddleware
        (fun c => (HandleError ErrNotFound (HandleError ErrNotFound c), none))
        { errors := [], responses := [], logs := [], aborted := false } =
      ({ errors := [ErrNotFound, ErrNotFound]
         responses := [(404, { code := 404, message := "资源不存在", details := "" })]
         logs := [Severity.warn]
         aborted := true }, none) := by
  have h := (c6_propagation_last_error_once
    (fun c => (HandleError ErrNotFound (HandleError ErrNotFound c), none))
    { errors := [], responses := [], logs := [], aborted := false }
    { errors := [ErrNotFound, ErrNotFound], responses := [], logs := [],
      aborted := false }
    rfl).1 [ErrNotFound] ErrNotFound rfl
  rw [h]
  rfl

/-- C7: with the registration order of main.go (recovery stage outermost,
wrapping the propagation stage), a handler that attaches an error and then
panics produces exactly one written response — the classification of the
recovered panic value, independent of the attached error — because the
panic unwinds past the propagation stage before it can classify the
attachment. -/
theorem c7_panic_beats_attached_error (e : GoError) (v : PanicVal) (c0 : Ctx) :
    mainChain (fun c => (HandleError e c, some v)) c0 =
      (applyHandleError (recoveredDispatch v) { c0 with errors := c0.errors ++ [e] },
        none) ∧
    (mainChain (fun c => (HandleError e c, some v)) c0).1.responses =
      c0.responses ++
        [((handleError (recoveredDispatch v)).status,
          (handleError (recoveredDispatch v)).body)] := by
  exact ⟨rfl, rfl⟩

/-- C8: classifying `NewAppError code message details` reproduces the triple
verbatim in the wire response for every code, message and details; in
particular `NewAppError 404 "not found" "id=7"` reproduces
code 404, message "not found", details "id=7" with status 404 and a `warn`
log record. -/
theorem c8_newAppError_roundtrip :
    (∀ (code : Int) (message details : String),
      (handleError (NewAppError code message details)).body =
        { code := code, message := message, details := details } ∧
      (handleError (NewAppError code message details)).status = code) ∧
    handleError (NewAppError 404 "not found" "id=7") =
      { status := 404
        body := { code := 404, message := "not found", details := "id=7" }
        severity := .warn } := by
  refine ⟨fun code message details => ⟨rfl, rfl⟩, ?_⟩
  rfl

/-- C9: when the `:id` path parameter does not parse as an integer, both
`GetByID` and `Delete` attach the sentinel `ErrBadRequest` and return
before their service call, and the classification of that sentinel is
status 400 with message 请求参数错误, no details, logged at `warn`. -/
theorem c9_invalid_id_bad_request (s : String) (h : goAtoi s = none) :
    GetByID s = RouteOutcome.attach ErrBadRequest ∧
    Delete s = RouteOutcome.attach ErrBadRequest ∧
    handleError ErrBadRequest =
      { status := 400
        body := { code := 400, message := "请求参数错误", details := "" }
        severity := .warn } := by
  refine ⟨?_, ?_, rfl⟩ <;> simp [GetByID, Delete, h]

/-- C9 witness: the test input "invalid" does not parse, so both routes
attach `ErrBadRequest` without reaching the service. -/
theorem c9_witness :
    goAtoi "invalid" = none ∧
    GetByID "invalid" = RouteOutcome.attach ErrBadRequest ∧
    Delete "invalid" = RouteOutcome.attach ErrBadRequest :=
  ⟨by decide, (c9_invalid_id_bad_request "invalid" (by decide)).1,
    (c9_invalid_id_bad_request "invalid" (by decide)).2.1⟩

/-- C10: a `num` query parameter that is absent, unparseable or equal to
zero is silently replaced by the default page size 10 — the handler attaches
no error and always reaches `Service.Fetch`, in these cases with the
positive number 10. -/
theorem c10_fetch_num_default (s : String)
    (h : goAtoi s = none ∨ goAtoi s = some 0) (cursor : String) :
    FetchArticle (some s) cursor = RouteOutcome.callFetch cursor 10 ∧
    FetchArticle none cursor = RouteOutcome.callFetch cursor 10 ∧
    (0 : Int) < 10 := by
  refine ⟨?_, rfl, by norm_num⟩
  cases h with
  | inl hn => simp [FetchArticle, hn]
  | inr hz => simp [FetchArticle, hz]

/-- C10 witness: both an unparseable value and a zero value for `num`, and
an absent `num` key, all reach the service call with num = 10. -/
theorem c10_witness :
    FetchArticle (some "abc") "" = RouteOutcome.callFetch "" 10 ∧
    FetchArticle (some "0") "" = RouteOutcome.callFetch "" 10 ∧
    FetchArticle none "" = RouteOutcome.callFetch "" 10 :=
  ⟨(c10_fetch_num_default "abc" (Or.inl (by decide)) "").1,
    (c10_fetch_num_default "0" (Or.inr (by decide)) "").1,
    (c10_fetch_num_default "abc" (Or.inl (by decide)) "").2.1⟩

end GoCleanArch
